import Mathlib

/-!
Verification of the klippy clipboard-history client store
(`src/lib/store.ts`) and the per-row image preview fallback
(`ClipRow`), shallowly embedded in Lean.

The store is a SolidJS signal bundle; we model its observable state as a
record and each asynchronous operation as a pure function that takes the
outcome of the awaited gateway calls (`Except String` results stand for
resolved/rejected promises) and returns the list of gateway requests it
issued, the settled outcome, and the resulting state.
-/

namespace Klippy

/-- Content kind of a clip (`ContentType` in `src/lib/types.ts`):
a closed tag set, not inferred by the client. -/
inductive ContentType
  | text
  | url
  | code
  | image
deriving DecidableEq

/-- A clipboard record (`Clip` in `src/lib/types.ts`). Optional fields
are `Option`; a JS `null`/`undefined` path is `none`. -/
structure Clip where
  id : Nat
  content : String
  contentType : ContentType
  pinned : Bool
  createdAt : String
  mediaPath : Option String := none
  thumbPath : Option String := none
  mimeType : Option String := none
  byteSize : Option Nat := none
  pixelWidth : Option Nat := none
  pixelHeight : Option Nat := none
deriving DecidableEq

/-- One page of results from `list_clips` (`ClipPage` in types.ts). -/
structure ClipPage where
  items : List Clip
  total : Nat
  nextOffset : Option Nat
deriving DecidableEq

/-- Backend settings object (`Settings` in types.ts). -/
structure Settings where
  historyLimit : Nat
  trackingPaused : Bool
  maxClipBytes : Nat
  restoreClipboardAfterPaste : Bool
  denylistBundleIds : List String
deriving DecidableEq

/-- A request issued to the Remote Gateway (`src/lib/api.ts`). -/
inductive GatewayCall
  | listClips (query : Option String) (limit : Nat) (offset : Nat)
  | copyClip (id : Nat)
  | setPinned (id : Nat) (pinned : Bool)
  | deleteClip (id : Nat)
  | clearAllClips
  | getSettings
  | updateSettings (trackingPaused : Bool)
  | setTrackingPaused (paused : Bool)
  | stopApp
deriving DecidableEq

/-- Fixed page size used by `reload` (`const PAGE_SIZE = 100`). -/
def PAGE_SIZE : Nat := 100

/-- The observable store state: the five signals created in
`useClipStore` (`items`, `loading`, `query`, `selectedIndex`, `paused`)
plus the internal `settings` signal. `selectedIndex` is a JS number set
without range checks, so it is an `Int`. -/
structure StoreState where
  items : List Clip
  loading : Bool
  query : String
  selectedIndex : Int
  settings : Option Settings
  paused : Bool
deriving DecidableEq

/-- The initial signal values in `useClipStore`. -/
def initialState : StoreState :=
  { items := [], loading := true, query := "", selectedIndex := 0,
    settings := none, paused := false }

/-- JS `String.prototype.trim`, embedded structurally over the char
sequence: drop whitespace from both ends. (Lean's `String.trim` has the
same meaning on the ASCII whitespace relevant here but is defined by
well-founded recursion over byte positions, so we embed the builtin
directly.) -/
def jsTrim (s : String) : String :=
  String.mk
    (((s.data.dropWhile Char.isWhitespace).reverse.dropWhile
        Char.isWhitespace).reverse)

/-- The first argument of the `listClips` request issued by `reload`:
`query().trim() === '' ? null : query()` (store.ts line 49). Note the
raw, untrimmed query is forwarded when the trimmed form is nonempty. -/
def listArg (q : String) : Option String :=
  if jsTrim q = "" then none else some q

/-- `reload` (store.ts lines 46-60): sets the loading flag, awaits
`listClips`, and on success replaces `items` and re-clamps the
selection (`0` when the page is empty, `length - 1` when the previous
selection is at or past the end, unchanged otherwise); `finally`
clears the loading flag on both exit paths, and a rejection
propagates. `listResult` is the outcome of the awaited gateway call. -/
def reload (listResult : Except String ClipPage) (s : StoreState) :
    List GatewayCall × Except String Unit × StoreState :=
  let calls := [GatewayCall.listClips (listArg s.query) PAGE_SIZE 0]
  match listResult with
  | Except.error e => (calls, Except.error e, { s with loading := false })
  | Except.ok page =>
      let currentSelected := s.selectedIndex
      let sel :=
        if page.items.length = 0 then 0
        else if currentSelected ≥ (page.items.length : Int) then
          (page.items.length : Int) - 1
        else currentSelected
      (calls, Except.ok (),
        { s with items := page.items, selectedIndex := sel, loading := false })

/-- `setSelectedIndex` (store.ts line 41): the raw signal setter exposed
directly on the store contract; it stores the given value as-is. -/
def setSelectedIndex (value : Int) (s : StoreState) : StoreState :=
  { s with selectedIndex := value }

/-- `copy` (store.ts lines 69-71): awaits `copyClip(id)` and nothing
else; `copyResult` is the outcome of that gateway call. -/
def copy (id : Nat) (copyResult : Except String Unit) (s : StoreState) :
    List GatewayCall × Except String Unit × StoreState :=
  ([GatewayCall.copyClip id], copyResult, s)

/-- `pin` (store.ts lines 73-76): awaits `setPinned(id, pinned)`, then
on success awaits `reload()`. -/
def pin (id : Nat) (pinned : Bool) (pinResult : Except String Unit)
    (listResult : Except String ClipPage) (s : StoreState) :
    List GatewayCall × Except String Unit × StoreState :=
  match pinResult with
  | Except.error e => ([GatewayCall.setPinned id pinned], Except.error e, s)
  | Except.ok _ =>
      let r := reload listResult s
      (GatewayCall.setPinned id pinned :: r.1, r.2.1, r.2.2)

/-- `remove` (store.ts lines 78-81): awaits `deleteClip(id)`, then on
success awaits `reload()`. -/
def remove (id : Nat) (deleteResult : Except String Unit)
    (listResult : Except String ClipPage) (s : StoreState) :
    List GatewayCall × Except String Unit × StoreState :=
  match deleteResult with
  | Except.error e => ([GatewayCall.deleteClip id], Except.error e, s)
  | Except.ok _ =>
      let r := reload listResult s
      (GatewayCall.deleteClip id :: r.1, r.2.1, r.2.2)

/-- `clearAll` (store.ts lines 83-86): awaits `clearAllClips()` (which
resolves to a count), then on success awaits `reload()`. -/
def clearAll (clearResult : Except String Nat)
    (listResult : Except String ClipPage) (s : StoreState) :
    List GatewayCall × Except String Unit × StoreState :=
  match clearResult with
  | Except.error e => ([GatewayCall.clearAllClips], Except.error e, s)
  | Except.ok _ =>
      let r := reload listResult s
      (GatewayCall.clearAllClips :: r.1, r.2.1, r.2.2)

/-- `togglePaused` (store.ts lines 88-94): computes `next = !paused()`,
awaits `setTrackingPaused(next)`, then `updateSettings`, and only after
both resolve stores the updated settings and flips the local flag. -/
def togglePaused (setResult : Except String Unit)
    (updResult : Except String Settings) (s : StoreState) :
    List GatewayCall × Except String Unit × StoreState :=
  let next := !s.paused
  match setResult with
  | Except.error e =>
      ([GatewayCall.setTrackingPaused next], Except.error e, s)
  | Except.ok _ =>
      match updResult with
      | Except.error e =>
          ([GatewayCall.setTrackingPaused next, GatewayCall.updateSettings next],
            Except.error e, s)
      | Except.ok updated =>
          ([GatewayCall.setTrackingPaused next, GatewayCall.updateSettings next],
            Except.ok (), { s with settings := some updated, paused := next })

/-- Number of `listClips` requests in a gateway trace. -/
def countListCalls (calls : List GatewayCall) : Nat :=
  calls.countP fun c =>
    match c with
    | GatewayCall.listClips _ _ _ => true
    | _ => false

/-- The fields of a DOM `KeyboardEvent` that `onKeyDown` reads. -/
structure KeyEvent where
  key : String
  defaultPrevented : Bool
  isComposing : Bool

/-- JS `currentItems[selectedIndex()]`: array indexing with a possibly
out-of-range or negative index yields `undefined` (`none`). -/
def itemAt (items : List Clip) (i : Int) : Option Clip :=
  if 0 ≤ i then items.get? i.toNat else none

/-- `onKeyDown` (store.ts lines 110-140). Returns the new state, whether
`event.preventDefault()` was called, and the gateway requests issued.
Ignores events already handled upstream (`defaultPrevented`) or from IME
composition; no-op on an empty list; ArrowDown moves the selection to
`min(idx + 1, length - 1)` and ArrowUp to `max(idx - 1, 0)`, both
preventing the default; Enter copies the active item when one exists. -/
def onKeyDown (ev : KeyEvent) (s : StoreState) :
    StoreState × Bool × List GatewayCall :=
  if ev.defaultPrevented || ev.isComposing then (s, false, [])
  else if s.items.length = 0 then (s, false, [])
  else if ev.key = "ArrowDown" then
    ({ s with selectedIndex := min (s.selectedIndex + 1) ((s.items.length : Int) - 1) },
      true, [])
  else if ev.key = "ArrowUp" then
    ({ s with selectedIndex := max (s.selectedIndex - 1) 0 }, true, [])
  else
    match itemAt s.items s.selectedIndex with
    | none => (s, false, [])
    | some active =>
        if ev.key = "Enter" then (s, true, [GatewayCall.copyClip active.id])
        else (s, false, [])

/-! ## Image Preview Resolver (`ClipRow`)

Per-row fallback: `imageFallbackStep` is 0 (prefer thumbnail), 1
(prefer original) or 2 (placeholder), reset to 0 by an effect keyed on
`props.clip.id`. `convertFileSrc` is an external injective path-to-URL
conversion with no logic of its own; we model the source choice by the
underlying path. -/

/-- `mediaSrc` in ClipRow: `path ? convertFileSrc(path) : null` — JS
truthiness, so a missing or empty path yields `null`. -/
def mediaSrc (path : Option String) : Option String :=
  match path with
  | none => none
  | some p => if p = "" then none else some p

/-- `hasThumb`: `Boolean(props.clip.thumbPath)`. -/
def hasThumb (c : Clip) : Bool :=
  match c.thumbPath with
  | none => false
  | some p => p != ""

/-- `hasOriginal`: `Boolean(props.clip.mediaPath)`. -/
def hasOriginal (c : Clip) : Bool :=
  match c.mediaPath with
  | none => false
  | some p => p != ""

/-- `previewSrc` in ClipRow: step 0 shows `thumb ?? original`, step 1
shows the original, step 2 (and beyond) shows nothing (placeholder). -/
def previewSrc (c : Clip) (step : Nat) : Option String :=
  if step = 0 then
    match mediaSrc c.thumbPath with
    | some t => some t
    | none => mediaSrc c.mediaPath
  else if step = 1 then mediaSrc c.mediaPath
  else none

/-- The `onError` handler of the preview `img` (ClipRow lines 134-141):
from step 0 with both a thumbnail and an original available it advances
to 1; in every other case it jumps to 2 (placeholder). -/
def onImageError (c : Clip) (step : Nat) : Nat :=
  if step == 0 && hasThumb c && hasOriginal c then 1 else 2

/-- The step an identity change resets to (the `createEffect` keyed on
`props.clip.id` sets the fallback step back to 0). -/
def resetStep : Nat := 0

/-! ## Search Debouncer

`setQueryDebounced` keeps a single timer slot: it clears any pending
timer, then schedules a fresh one whose callback runs `reload()` once.
We track created and cancelled timer ids; after the quiescence window
the timers that fire — each running exactly one `reload()` — are the
created ones never cancelled. -/

/-- The debounce state: the `query` signal, the `debounceTimer`
variable, and the bookkeeping of which timer ids `window.setTimeout`
handed out and which were passed to `window.clearTimeout`. -/
structure DebounceState where
  query : String
  nextTimerId : Nat
  debounceTimer : Option Nat
  cancelled : List Nat
  created : List Nat

/-- Debounce state at store creation: no timer pending. -/
def initDebounce : DebounceState :=
  { query := "", nextTimerId := 0, debounceTimer := none,
    cancelled := [], created := [] }

/-- `setQueryDebounced` (store.ts lines 100-108): updates the query
signal immediately, cancels the pending timer if any, and schedules a
fresh timer (whose callback will run `reload()` once, swallowing its
rejection). -/
def setQueryDebounced (value : String) (d : DebounceState) : DebounceState :=
  { query := value
    nextTimerId := d.nextTimerId + 1
    debounceTimer := some d.nextTimerId
    cancelled :=
      match d.debounceTimer with
      | some t => t :: d.cancelled
      | none => d.cancelled
    created := d.created ++ [d.nextTimerId] }

/-- A burst of rapid `setQuery` calls, all within the quiescence window
(so no timer expires between them). -/
def runSetQueries (values : List String) (d : DebounceState) : DebounceState :=
  values.foldl (fun acc v => setQueryDebounced v acc) d

/-- The timers that will fire once the quiescence window expires:
created and never cancelled. -/
def firingTimers (d : DebounceState) : List Nat :=
  d.created.filter fun t => !d.cancelled.contains t

/-- Number of `reload()` invocations after the window expires: each
firing timer's callback runs `reload()` exactly once. -/
def reloadsAfterQuiescence (d : DebounceState) : Nat :=
  (firingTimers d).length

/-! ## Concrete fixtures used by counterexamples and witnesses -/

/-- A minimal text clip. -/
def clipA : Clip :=
  { id := 1, content := "alpha", contentType := ContentType.text,
    pinned := false, createdAt := "2026-01-01T00:00:00Z" }

/-- A second text clip. -/
def clipB : Clip :=
  { id := 2, content := "beta", contentType := ContentType.text,
    pinned := false, createdAt := "2026-01-01T00:00:01Z" }

/-- A one-element page. -/
def pageA : ClipPage := { items := [clipA], total := 1, nextOffset := none }

/-- An empty page. -/
def pageE : ClipPage := { items := [], total := 0, nextOffset := none }

/-- A store state whose selection was set to -1 through the unclamped
`setSelectedIndex` setter. -/
def negState : StoreState :=
  { items := [], loading := false, query := "", selectedIndex := -1,
    settings := none, paused := false }

/-- A store state whose raw query is nonblank but untrimmed. -/
def spacedState : StoreState :=
  { items := [], loading := false, query := " a ", selectedIndex := 0,
    settings := none, paused := false }

/-- A store state whose raw query is whitespace-only. -/
def wsState : StoreState :=
  { items := [], loading := false, query := "  ", selectedIndex := 0,
    settings := none, paused := false }

/-- A store state holding two clips with selection 0. -/
def twoState : StoreState :=
  { items := [clipA, clipB], loading := false, query := "",
    selectedIndex := 0, settings := none, paused := false }

/-- An image clip with a thumbnail path but no original-media path. -/
def imgThumbOnly : Clip :=
  { id := 3, content := "[image]", contentType := ContentType.image,
    pinned := false, createdAt := "2026-01-01T00:00:02Z",
    thumbPath := some "/tmp/thumb.png", mediaPath := none }

/-! ## Claims -/

/-- Claim C1, counterexample: the claim quantifies over every prior
selection index, but `reload` only clamps the upper end. With prior
selection -1 (reachable, since `setSelectedIndex` stores raw values)
and a settled reload delivering a one-element page, the resulting
selection is still -1, outside `[0, L)` even though `L = 1 > 0`. -/
theorem reload_clamp_counterexample :
    pageA.items.length > 0 ∧
    ((reload (Except.ok pageA) negState).2.2).selectedIndex = -1 ∧
    ¬ (0 ≤ ((reload (Except.ok pageA) negState).2.2).selectedIndex ∧
        ((reload (Except.ok pageA) negState).2.2).selectedIndex <
          (pageA.items.length : Int)) := by
  decide

/-- Claim C1 (amended): for every nonnegative prior selection index,
after a settled `reload()` the selection lies in `[0, L)` when the new
page is nonempty, and is the empty-list sentinel 0 when it is empty.
(The code never clamps a negative prior index, so nonnegativity of the
prior index is required.) -/
theorem reload_clamps_selection (c : Clip) (cs : List Clip) (tot : Nat)
    (off : Option Nat) (its : List Clip) (l : Bool) (q : String) (n : Nat)
    (st : Option Settings) (pz : Bool) :
    (0 ≤ ((reload (Except.ok ⟨c :: cs, tot, off⟩)
          ⟨its, l, q, (n : Int), st, pz⟩).2.2).selectedIndex ∧
      ((reload (Except.ok ⟨c :: cs, tot, off⟩)
          ⟨its, l, q, (n : Int), st, pz⟩).2.2).selectedIndex <
        ((c :: cs).length : Int)) ∧
    ((reload (Except.ok ⟨[], tot, off⟩)
        ⟨its, l, q, (n : Int), st, pz⟩).2.2).selectedIndex = 0 := by
  refine ⟨?_, by simp [reload]⟩
  simp only [reload, List.length_cons]
  split_ifs with h1 h2 <;> simp_all

/-- Claim C2, counterexample: the effective query forwarded to the
list operation is the raw string, not the trimmed one. With raw query
" a ", `reload` issues `listClips` with `some " a "`, although the
trimmed form is "a". -/
theorem effective_query_counterexample :
    (reload (Except.ok pageE) spacedState).1 =
      [GatewayCall.listClips (some " a ") PAGE_SIZE 0] ∧
    jsTrim spacedState.query = "a" ∧
    some (" a " : String) ≠ some ("a" : String) := by
  decide

/-- Claim C2 (amended): trimming is used only for the emptiness test: a
query whose trimmed form is empty (whitespace-only included) is
normalized to `none` (null), and any other query is forwarded raw and
untrimmed to the list operation. -/
theorem effective_query_normalization (s : StoreState)
    (r : Except String ClipPage) :
    (jsTrim s.query = "" →
      (reload r s).1 = [GatewayCall.listClips none PAGE_SIZE 0]) ∧
    (jsTrim s.query ≠ "" →
      (reload r s).1 = [GatewayCall.listClips (some s.query) PAGE_SIZE 0]) := by
  cases r <;> refine ⟨fun h => ?_, fun h => ?_⟩ <;> simp [reload, listArg, h]

/-- Witness for C2's amended theorem: setting the query to "  "
(whitespace only) makes `reload` call list with null, and setting it to
" a " makes it call list with the raw " a ". -/
theorem effective_query_normalization_witness :
    (reload (Except.ok pageE) wsState).1 =
      [GatewayCall.listClips none PAGE_SIZE 0] ∧
    (reload (Except.ok pageE) spacedState).1 =
      [GatewayCall.listClips (some " a ") PAGE_SIZE 0] :=
  ⟨(effective_query_normalization wsState (Except.ok pageE)).1 (by decide),
   (effective_query_normalization spacedState (Except.ok pageE)).2 (by decide)⟩

/-- Claim C3, counterexample: `setSelectedIndex` is the raw signal
setter and does not clamp. On a two-element list, `setSelectedIndex 5`
stores 5, which is outside the bounds of the current snapshot. -/
theorem setSelectedIndex_unclamped_counterexample :
    twoState.items.length = 2 ∧
    (setSelectedIndex 5 twoState).selectedIndex = 5 ∧
    ¬ ((setSelectedIndex 5 twoState).selectedIndex <
        ((setSelectedIndex 5 twoState).items.length : Int)) := by
  decide

/-- Claim C3 (amended): `setSelectedIndex i` stores `i` unchanged — no
clamping is applied — and leaves every other observable field of the
store untouched; an out-of-bounds stored selection persists until the
next settled reload re-clamps the upper end. -/
theorem setSelectedIndex_stores_raw (i : Int) (s : StoreState) :
    (setSelectedIndex i s).selectedIndex = i ∧
    (setSelectedIndex i s).items = s.items ∧
    (setSelectedIndex i s).loading = s.loading ∧
    (setSelectedIndex i s).query = s.query ∧
    (setSelectedIndex i s).paused = s.paused :=
  ⟨rfl, rfl, rfl, rfl, rfl⟩

/-- Claim C4: when the gateway list operation rejects during `reload`,
the rejection propagates to the caller, the loading flag is cleared on
that exit path (the `finally` block), and the state is otherwise left
at its last-known-good values — items, selection, query, and pause flag
unchanged; on success the loading flag is cleared the same way. -/
theorem reload_failure_semantics (e : String) (s : StoreState) (p : ClipPage) :
    (reload (Except.error e) s).2.1 = Except.error e ∧
    (reload (Except.error e) s).2.2 = { s with loading := false } ∧
    (reload (Except.ok p) s).2.2.loading = false :=
  ⟨rfl, rfl, rfl⟩

/-- Claim C5: a successful `pin`, `remove`, or `clearAll` issues exactly
one `listClips` request (the single reload after the mutation
resolves), while `copy` issues zero. -/
theorem mutation_reload_counts (id1 : Nat) (pv : Bool) (k : Nat)
    (p1 p2 p3 : ClipPage) (s : StoreState) :
    countListCalls (pin id1 pv (Except.ok ()) (Except.ok p1) s).1 = 1 ∧
    countListCalls (remove id1 (Except.ok ()) (Except.ok p2) s).1 = 1 ∧
    countListCalls (clearAll (Except.ok k) (Except.ok p3) s).1 = 1 ∧
    countListCalls (copy id1 (Except.ok ()) s).1 = 0 :=
  ⟨rfl, rfl, rfl, rfl⟩

/-- Claim C6: `onKeyDown` ignores events already handled upstream or
from IME composition (state, default-prevention and gateway traffic all
unchanged), is a no-op on an empty list, and otherwise ArrowDown sets
the selection to `min(current + 1, L - 1)` and ArrowUp to
`max(current - 1, 0)`, both preventing the key's default behavior. -/
theorem onKeyDown_navigation (k : String) (b : Bool) (s : StoreState)
    (c : Clip) (cs : List Clip) (l : Bool) (q : String) (i : Int)
    (st : Option Settings) (pz : Bool) :
    onKeyDown ⟨k, true, b⟩ s = (s, false, []) ∧
    onKeyDown ⟨k, b, true⟩ s = (s, false, []) ∧
    onKeyDown ⟨k, false, false⟩ ⟨[], l, q, i, st, pz⟩ =
      (⟨[], l, q, i, st, pz⟩, false, []) ∧
    onKeyDown ⟨"ArrowDown", false, false⟩ ⟨c :: cs, l, q, i, st, pz⟩ =
      (⟨c :: cs, l, q, min (i + 1) (((c :: cs).length : Int) - 1), st, pz⟩,
        true, []) ∧
    onKeyDown ⟨"ArrowUp", false, false⟩ ⟨c :: cs, l, q, i, st, pz⟩ =
      (⟨c :: cs, l, q, max (i - 1) 0, st, pz⟩, true, []) := by
  refine ⟨?_, ?_, ?_, ?_, ?_⟩ <;> simp [onKeyDown]

/-- Claim C7: the preview fallback is strictly forward — whenever an
image is actually shown (so a load failure can fire), the error handler
strictly increases the step, making PreferOriginal → PreferThumbnail
impossible without an identity change (which resets to step 0);
Placeholder is reached from step 0 only when no further path remains
(with both a thumbnail and an original available the first failure goes
to PreferOriginal); and for a clip with a thumbnail but no original, a
thumbnail failure jumps directly to Placeholder. -/
theorem image_fallback_monotone (c : Clip) (step : Nat) :
    (previewSrc c step ≠ none → step < onImageError c step) ∧
    (hasThumb c = true → hasOriginal c = true → onImageError c 0 = 1) ∧
    (hasThumb c = true → hasOriginal c = false → onImageError c 0 = 2) ∧
    onImageError c 1 = 2 := by
  refine ⟨?_, fun h1 h2 => ?_, fun h1 h2 => ?_, ?_⟩
  · intro h
    match step with
    | 0 =>
        unfold onImageError
        split <;> omega
    | 1 => simp [onImageError]
    | (n + 2) =>
        exfalso
        exact h (by simp [previewSrc])
  · simp [onImageError, h1, h2]
  · simp [onImageError, h1, h2]
  · simp [onImageError]

/-- Witness for C7: on a clip with a thumbnail path and no original
path, a thumbnail load failure at step 0 moves directly to the
placeholder step 2, a strictly forward move. -/
theorem image_fallback_monotone_witness :
    onImageError imgThumbOnly 0 = 2 ∧ (0 : Nat) < onImageError imgThumbOnly 0 :=
  ⟨(image_fallback_monotone imgThumbOnly 0).2.2.1 (by decide) (by decide),
   (image_fallback_monotone imgThumbOnly 0).1 (by decide)⟩

/-- Invariant of the debounce bookkeeping: timer ids handed out so far
are below the next fresh id, and the timers that would fire are exactly
the single pending one (or none). -/
def DebounceInv (d : DebounceState) : Prop :=
  (∀ t ∈ d.created, t < d.nextTimerId) ∧
  (∀ t ∈ d.cancelled, t < d.nextTimerId) ∧
  firingTimers d = d.debounceTimer.toList

/-- The fresh store satisfies the debounce invariant. -/
theorem debounceInv_init : DebounceInv initDebounce := by
  refine ⟨?_, ?_, rfl⟩ <;> intro t ht <;> simp [initDebounce] at ht

/-- One `setQueryDebounced` call preserves the debounce invariant:
the freshly scheduled timer becomes the unique firing one. -/
theorem debounceInv_step (v : String) (d : DebounceState)
    (h : DebounceInv d) : DebounceInv (setQueryDebounced v d) := by
  obtain ⟨hcr, hcl, hf⟩ := h
  cases hd : d.debounceTimer with
  | none =>
      refine ⟨?_, ?_, ?_⟩
      · intro t ht
        simp only [setQueryDebounced] at ht ⊢
        rcases List.mem_append.mp ht with ht | ht
        · exact Nat.lt_succ_of_lt (hcr t ht)
        · simp at ht
          omega
      · intro t ht
        simp only [setQueryDebounced, hd] at ht ⊢
        exact Nat.lt_succ_of_lt (hcl t ht)
      · have hnil : firingTimers d = [] := by
          rw [hf, hd]; rfl
        simp only [firingTimers, setQueryDebounced, hd, List.filter_append]
        rw [show d.created.filter
              (fun t => !d.cancelled.contains t) = [] from hnil]
        simp [List.elem_iff]
        intro hmem
        exact absurd (hcl _ hmem) (by omega)
  | some t0 =>
      have ht0 : t0 ∈ d.created := by
        have hmem : t0 ∈ firingTimers d := by
          rw [hf, hd]
          exact List.mem_singleton.mpr rfl
        exact (List.mem_filter.mp hmem).1
      refine ⟨?_, ?_, ?_⟩
      · intro t ht
        simp only [setQueryDebounced] at ht ⊢
        rcases List.mem_append.mp ht with ht | ht
        · exact Nat.lt_succ_of_lt (hcr t ht)
        · simp at ht
          omega
      · intro t ht
        simp only [setQueryDebounced, hd, List.mem_cons] at ht ⊢
        rcases ht with ht | ht
        · rw [ht]
          exact Nat.lt_succ_of_lt (hcr t0 ht0)
        · exact Nat.lt_succ_of_lt (hcl t ht)
      · simp only [firingTimers, setQueryDebounced, hd, List.filter_append]
        have hpart1 : d.created.filter
            (fun t => !((t0 :: d.cancelled).contains t)) = [] := by
          rw [List.filter_eq_nil_iff]
          intro a ha hpass
          simp [List.elem_iff] at hpass
          have hold : a ∈ firingTimers d := by
            simp only [firingTimers, List.mem_filter]
            refine ⟨ha, ?_⟩
            simp [List.elem_iff]
            exact hpass.2
          rw [hf, hd] at hold
          exact hpass.1 (List.mem_singleton.mp hold)
        rw [hpart1]
        have hth : t0 < d.nextTimerId := hcr t0 ht0
        simp [List.elem_iff]
        constructor
        · omega
        · intro hmem
          exact absurd (hcl _ hmem) (by omega)

/-- A burst of `setQueryDebounced` calls preserves the invariant. -/
theorem debounceInv_run (vs : List String) (d : DebounceState)
    (h : DebounceInv d) : DebounceInv (runSetQueries vs d) := by
  induction vs generalizing d with
  | nil => simpa [runSetQueries] using h
  | cons v ws ih =>
      simp only [runSetQueries, List.foldl_cons] at *
      exact ih _ (debounceInv_step v d h)

/-- After at least one `setQueryDebounced` call a timer is pending. -/
theorem run_pending_isSome (vs : List String) (v : String)
    (d : DebounceState) :
    (runSetQueries (v :: vs) d).debounceTimer.isSome = true := by
  induction vs generalizing v d with
  | nil => rfl
  | cons w ws ih =>
      simpa [runSetQueries, List.foldl_cons] using ih w (setQueryDebounced v d)

/-- Claim C8: any burst of one or more rapid `setQuery` calls inside the
debounce quiescence window — each new call cancelling the pending timer
and scheduling a fresh one — leaves exactly one timer alive, so exactly
one `reload()` runs after the window expires. -/
theorem debounce_coalesces_reloads (v : String) (vs : List String) :
    reloadsAfterQuiescence (runSetQueries (v :: vs) initDebounce) = 1 := by
  obtain ⟨-, -, hf⟩ := debounceInv_run (v :: vs) initDebounce debounceInv_init
  have hsome := run_pending_isSome vs v initDebounce
  unfold reloadsAfterQuiescence
  rw [hf]
  cases hd : (runSetQueries (v :: vs) initDebounce).debounceTimer with
  | none => rw [hd] at hsome; simp at hsome
  | some t => rfl

/-- Claim C9: `togglePaused` performs no optimistic flip. If the
`setTrackingPaused` round trip rejects, the whole state (the pause flag
included) is unchanged and the rejection propagates; likewise if the
follow-up `updateSettings` rejects; only when the round trip succeeds
is the flag set to the negation of its prior value. -/
theorem togglePaused_round_trip (s : StoreState) (e1 e2 : String)
    (st : Settings) (u : Except String Settings) :
    (togglePaused (Except.error e1) u s).2.2 = s ∧
    (togglePaused (Except.error e1) u s).2.1 = Except.error e1 ∧
    (togglePaused (Except.ok ()) (Except.error e2) s).2.2 = s ∧
    (togglePaused (Except.ok ()) (Except.error e2) s).2.1 =
      Except.error e2 ∧
    (togglePaused (Except.ok ()) (Except.ok st) s).2.2.paused = !s.paused :=
  ⟨rfl, rfl, rfl, rfl, rfl⟩

/-- Claim C10: `copy` issues exactly the single `copyClip` gateway
request, its outcome (success or rejection) is exactly the gateway
outcome, and the entire observable store state is unchanged either
way. -/
theorem copy_frame (id1 : Nat) (r : Except String Unit) (s : StoreState) :
    (copy id1 r s).2.2 = s ∧
    (copy id1 r s).2.1 = r ∧
    (copy id1 r s).1 = [GatewayCall.copyClip id1] :=
  ⟨rfl, rfl, rfl⟩

end Klippy
